import Mathlib

/-!
Verification of the proximity-dispatch pipeline (distance resolution,
candidate ranking, arbiter selection, assignment state transition) against
its natural-language specification.  The definitions below are a shallow
embedding of `agents.py` (resolver, ranker, arbiter, assignment) and of the
`/complete-assignment` handler in `main.py`; network calls and the
generative-model service are modelled as explicit environments.
-/

namespace Dispatch

/-- A field value as stored in a document: either a numeric value or a
non-numeric (malformed) value such as a string that `float()` rejects.
A malformed value is truthy in Python (e.g. a non-empty string); the
numeric value `0` is falsy.  All numbers in the program are floats; the
claims constrain coordinates only at the resolution of hundredths of a
degree and distances only at the resolution the source's `round(·, 2)`
leaves behind, so numeric coordinate values are embedded as integers in
units of `0.01` degree (`0.0` is `0`, `1.0` is `100`, `0.01` is `1`). -/
inductive Val where
  | num (z : ℤ)
  | malformed
deriving DecidableEq, Repr

/-- Python truthiness of a field value: `0`/`0.0` is falsy, a malformed
(non-empty, non-numeric) value is truthy. -/
def Val.truthy : Val → Bool
  | .num z => decide (z ≠ 0)
  | .malformed => true

/-- Truthiness of an optional field: a missing (or null) field is falsy. -/
def optTruthy : Option Val → Bool
  | none => false
  | some v => v.truthy

/-- `float(x)`: succeeds exactly on numeric values. -/
def optFloat : Option Val → Option ℤ
  | some (.num z) => some z
  | _ => none

/-- Provider tag of a distance result, as in `compute_distance`. -/
inductive Method where
  | ORS | OSRM | Geopy | Failed
deriving DecidableEq, Repr

/-- One step of the resolver's fallback chain. -/
inductive Step where
  | ors | osrm | geopy
deriving DecidableEq, Repr

/-- Outcome environment for one `compute_distance` call: for each routing
provider, `some meters` iff the HTTP call returned success with a parseable
route distance (a timeout, a non-success status or a parse failure are all
`none`); `geoKm` is the great-circle distance (in km) that `geodesic`
computes on four numeric coordinates. -/
structure ResolverEnv where
  ors : Option ℤ
  osrm : Option ℤ
  geoKm : ℤ → ℤ → ℤ → ℤ → ℤ

/-- `round(meters / 1000.0, 2)`: a length in meters rounded to a whole
number of hundredths of a kilometer (the resolution every resolved
distance has after the source rounds to 2 decimal places; no claim
distinguishes the tie-breaking of Python's round-half-to-even, so ties
round up here). -/
def round2 (meters : ℤ) : ℤ := Int.fdiv (meters + 5) 10

/-- Extract the numeric pair from a coordinate pair of field values;
`none` when either component is malformed (so `geodesic` raises). -/
def coordNums : Val × Val → Option (ℤ × ℤ)
  | (.num a, .num b) => some (a, b)
  | _ => none

/-- `compute_distance` from `agents.py`, instrumented with the list of
fallback-chain steps that are attempted: try the primary provider (ORS);
on failure try the secondary provider (OSRM); on failure compute the
geometric (geodesic) distance, which succeeds iff both coordinates are
numeric.  Each successful step returns kilometers rounded to 2 decimals
with its tag. -/
def computeDistanceT (env : ResolverEnv) (c t : Val × Val) :
    (Option ℤ × Method) × List Step :=
  match env.ors with
  | some meters => ((some (round2 meters), .ORS), [.ors])
  | none =>
    match env.osrm with
    | some meters => ((some (round2 meters), .OSRM), [.ors, .osrm])
    | none =>
      match coordNums c, coordNums t with
      | some p, some q =>
          ((some (round2 (env.geoKm p.1 p.2 q.1 q.2)), .Geopy),
           [.ors, .osrm, .geopy])
      | _, _ => ((none, .Failed), [.ors, .osrm, .geopy])

/-- The value returned by `compute_distance`: optional distance and tag. -/
def compute_distance (env : ResolverEnv) (c t : Val × Val) :
    Option ℤ × Method :=
  (computeDistanceT env c t).1

/-- A customer document. -/
structure CustRec where
  oid : ℤ
  customer_id : ℤ
  name : String
  latitude : Option Val
  longitude : Option Val
deriving DecidableEq, Repr

/-- A technician document. -/
structure TechRec where
  oid : ℤ
  technician_id : ℤ
  name : String
  latitude : Option Val
  longitude : Option Val
  is_free : Option Bool
  availability_status : String
  assigned_customer : Option ℤ
deriving DecidableEq, Repr

/-- An assignment document as inserted by `assign_agent`. -/
structure AssignRec where
  customer_id : ℤ
  tech_id : ℤ
  customer_object_id : ℤ
  tech_object_id : ℤ
  customer_name : String
  tech_name : String
  distance_km : Option ℤ
  distance_method : Method
  llm_reason : String
  status : String
deriving DecidableEq, Repr

/-- The three persisted collections. -/
structure Db where
  customers : List CustRec
  technicians : List TechRec
  assignments : List AssignRec
deriving DecidableEq, Repr

/-- A technician together with the fields `compute_proximity_agent` adds
to its document (`distance_km`, `distance_method`). -/
structure RankedTech where
  tech : TechRec
  distance_km : Option ℤ
  distance_method : Method
deriving DecidableEq, Repr

/-- The guard `all([customer.get(lat), customer.get(lon), tech.get(lat),
tech.get(lon)])`: Python truthiness of all four coordinate fields. -/
def coordsPresent (c : CustRec) (t : TechRec) : Bool :=
  optTruthy c.latitude && optTruthy c.longitude &&
    optTruthy t.latitude && optTruthy t.longitude

/-- The per-technician body of the ranking loop: the truthiness guard, the
`float()` conversions and the resolver call, with every failure caught and
recorded as a null distance with the `Failed` tag. -/
def rankTech (renv : TechRec → ResolverEnv) (c : CustRec) (t : TechRec) :
    RankedTech :=
  if coordsPresent c t then
    match optFloat c.latitude, optFloat c.longitude,
          optFloat t.latitude, optFloat t.longitude with
    | some clat, some clon, some tlat, some tlon =>
        let r := compute_distance (renv t) (.num clat, .num clon)
                   (.num tlat, .num tlon)
        ⟨t, r.1, r.2⟩
    | _, _, _, _ => ⟨t, none, .Failed⟩
  else ⟨t, none, .Failed⟩

/-- Sort key of the ranking: the resolved distance (only applied to
technicians whose distance is non-null). -/
def rkey (r : RankedTech) : ℤ := r.distance_km.getD 0

/-- The comparison `sorted(..., key=lambda t: t["distance_km"])` uses.
Python's sort is stable; `List.insertionSort` with this non-strict
comparison is stable in the same sense (sorted output, ties kept in
input order), so it models `sorted` faithfully. -/
def rankRel (a b : RankedTech) : Prop := rkey a ≤ rkey b

instance : DecidableRel rankRel := fun a b =>
  inferInstanceAs (Decidable (rkey a ≤ rkey b))

instance : IsTotal RankedTech rankRel := ⟨fun a b => le_total (rkey a) (rkey b)⟩

instance : IsTrans RankedTech rankRel := ⟨fun _ _ _ => le_trans⟩

/-- The free-technician query `db.technicians.find({"is_free": True})`. -/
def freeTechs (db : Db) : List TechRec :=
  db.technicians.filter (fun t => t.is_free == some true)

/-- Outcome environment of the arbiter's model call: `httpFail` covers a
raised request, a non-200 status and an empty body; `badJson` covers a
content-extraction or JSON-parse failure (including non-object content);
`parsed` carries the optional `id` and `reason` fields of the parsed
object. -/
inductive LlmOutcome where
  | httpFail
  | badJson
  | parsed (idOpt : Option ℤ) (reasonOpt : Option String)
deriving DecidableEq, Repr

/-- The fixed justification used on every caught arbiter failure. -/
def fallbackReason : String := "LLM failed, assigned first nearest technician"

/-- The arbiter: on a caught failure, the first (closest) candidate with
the fixed justification; on a parsed reply, the candidate whose id matches
(defaulting to the first) with the model-supplied reason (defaulting to
"Chosen based on proximity"). -/
def chooseBest (lenv : LlmOutcome) (first : RankedTech)
    (top3 : List RankedTech) : RankedTech × String :=
  match lenv with
  | .httpFail => (first, fallbackReason)
  | .badJson => (first, fallbackReason)
  | .parsed idOpt reasonOpt =>
      ((top3.find? (fun t => some t.tech.technician_id == idOpt)).getD first,
       reasonOpt.getD "Chosen based on proximity")

/-- Errors raised by the pipeline's agents. -/
inductive DispatchErr where
  | missingCustomerId
  | customerNotFound
  | noFreeTechnicians
  | noValidDistance
  | techDocMissing
  | custDocMissing
deriving DecidableEq, Repr

/-- Environment of one whole ranking run: resolver outcomes per technician
and the model-call outcome. -/
structure RankEnv where
  renv : TechRec → ResolverEnv
  llm : LlmOutcome

/-- The candidates that survive distance resolution: every free
technician is ranked, and the ones with a null distance are dropped by
the list comprehension `[t for t in candidates if t["distance_km"] is not
None]`. -/
def resolvedCandidates (env : RankEnv) (cust : CustRec) (db : Db) :
    List RankedTech :=
  ((freeTechs db).map (rankTech env.renv cust)).filter
    (fun r => r.distance_km.isSome)

/-- `compute_proximity_agent`: query free technicians, fail when none;
resolve each distance; keep the non-null ones, sort ascending by distance
(stable), take the first 3, fail when empty; then select via the arbiter.
Returns the shortlist, the chosen candidate and the justification. -/
def compute_proximity_agent (env : RankEnv) (customer : CustRec) (db : Db) :
    Except DispatchErr (List RankedTech × RankedTech × String) :=
  if (freeTechs db).isEmpty then .error .noFreeTechnicians
  else
    match ((resolvedCandidates env customer db).insertionSort rankRel).take 3 with
    | [] => .error .noValidDistance
    | first :: rest =>
        let br := chooseBest env.llm first (first :: rest)
        .ok (first :: rest, br.1, br.2)

/-- `load_customer_agent`: read the ticket's customer id and look the
customer up. -/
def load_customer_agent (ticket : Option ℤ) (db : Db) :
    Except DispatchErr CustRec :=
  match ticket with
  | none => .error .missingCustomerId
  | some cid =>
    match db.customers.find? (fun c => c.customer_id == cid) with
    | none => .error .customerNotFound
    | some c => .ok c

/-- The `update_many` of `assign_agent`: flip to `completed` every
`assigned` record that references the technician or the customer. -/
def flipRec (tid cid : ℤ) (a : AssignRec) : AssignRec :=
  if (a.tech_id = tid ∧ a.status = "assigned") ∨
     (a.customer_id = cid ∧ a.status = "assigned")
  then { a with status := "completed" } else a

/-- `update_one`: rewrite the first document matching the predicate. -/
def updateFirst (p : α → Bool) (f : α → α) : List α → List α
  | [] => []
  | x :: xs => if p x then f x :: xs else x :: updateFirst p f xs

/-- `assign_agent`: fetch both documents, complete every stale `assigned`
record referencing either party, mark the technician unavailable, insert
the new `assigned` record.  A missing document makes the Python code crash
only when the document is first dereferenced, so the writes that precede
the dereference have already happened; the returned `Db` reflects that. -/
def assign_agent (best : RankedTech) (reason : String) (customer : CustRec)
    (db : Db) : Db × Except DispatchErr (TechRec × CustRec) :=
  let tid := best.tech.technician_id
  let cid := customer.customer_id
  let techOpt := db.technicians.find? (fun t => t.technician_id == tid)
  let custOpt := db.customers.find? (fun c => c.customer_id == cid)
  let db1 := { db with assignments := db.assignments.map (flipRec tid cid) }
  match techOpt with
  | none => (db1, .error .techDocMissing)
  | some techDoc =>
    let techUpd : TechRec → TechRec := fun t =>
      { t with is_free := some false, availability_status := "assigned",
               assigned_customer := some cid }
    let techs2 :=
      updateFirst (fun t => t.oid == techDoc.oid) techUpd db1.technicians
    let db2 := { db1 with technicians := techs2 }
    match custOpt with
    | none => (db2, .error .custDocMissing)
    | some custDoc =>
      let newRec : AssignRec :=
        { customer_id := cid, tech_id := tid,
          customer_object_id := custDoc.oid, tech_object_id := techDoc.oid,
          customer_name := custDoc.name, tech_name := techDoc.name,
          distance_km := best.distance_km,
          distance_method := best.distance_method,
          llm_reason := reason, status := "assigned" }
      ({ db2 with assignments := db2.assignments ++ [newRec] },
       .ok (techDoc, custDoc))

/-- The compiled graph: load the customer, rank and choose, then assign;
an error at any node aborts the run with the state the node left behind. -/
def dispatch (env : RankEnv) (ticket : Option ℤ) (db : Db) :
    Except DispatchErr (TechRec × CustRec) × Db :=
  match load_customer_agent ticket db with
  | .error e => (.error e, db)
  | .ok customer =>
    match compute_proximity_agent env customer db with
    | .error e => (.error e, db)
    | .ok (_, best, reason) =>
      match assign_agent best reason customer db with
      | (db', .error e) => (.error e, db')
      | (db', .ok tc) => (.ok tc, db')

/-- Result of the `/complete-assignment` handler. -/
inductive ReleaseResult where
  | notFound
  | noop
  | success (closed : ℕ)
deriving DecidableEq, Repr

/-- The `$set` document of step 1 of `complete_assignment`: mark the
technician free and available, clear the assigned-customer reference. -/
def freeTech (t : TechRec) : TechRec :=
  { t with is_free := some true, assigned_customer := none,
           availability_status := "available" }

/-- `complete_assignment` from `main.py`: 404 when the technician is
unknown; a no-op without mutation when the technician is already free
(`get("is_free", True)`); otherwise mark the technician free, clear the
assigned-customer reference, and complete all of the technician's
non-completed assignments. -/
def complete_assignment (tid : ℤ) (db : Db) : ReleaseResult × Db :=
  match db.technicians.find? (fun t => t.technician_id == tid) with
  | none => (.notFound, db)
  | some tech =>
    if tech.is_free.getD true then (.noop, db)
    else
      let closed := (db.assignments.filter
        (fun a => a.tech_id == tid && !(a.status == "completed"))).length
      (.success closed,
       { db with
         technicians := updateFirst (fun t => t.technician_id == tid)
           freeTech db.technicians,
         assignments := db.assignments.map (fun a =>
           if a.tech_id = tid ∧ a.status ≠ "completed"
           then { a with status := "completed" } else a) })

/-! Concrete instances used by scenario theorems and witnesses. -/

/-- Scenario A customer: at `(0, 0)` degrees. -/
def cust0 : CustRec := ⟨100, 1, "cust", some (.num 0), some (.num 0)⟩

/-- Scenario A far technician: at `(0, 1)` degrees (about 111 km). -/
def techFar : TechRec :=
  ⟨201, 2, "far", some (.num 0), some (.num 100), some true, "available", none⟩

/-- Scenario A near technician: at `(0, 0.01)` degrees (about 1.1 km). -/
def techNear : TechRec :=
  ⟨202, 3, "near", some (.num 0), some (.num 1), some true, "available", none⟩

/-- Scenario A database: the customer and the two free technicians. -/
def db0 : Db := ⟨[cust0], [techFar, techNear], []⟩

/-- Scenario A environment: both routing providers unreachable, the model
service unreachable, geodesic distances 111.195 km to the far technician
and 1.112 km to the near one. -/
def envDown : RankEnv :=
  ⟨fun _ => ⟨none, none, fun _ _ _ lon2 => if lon2 = 100 then 111195 else 1112⟩,
   .httpFail⟩

/-- A ranked-technician value used in arbiter theorems (id 1). -/
def crt1 : RankedTech :=
  ⟨⟨11, 1, "a", none, none, some true, "available", none⟩, some 100, .Geopy⟩

/-- A ranked-technician value used in arbiter theorems (id 2). -/
def crt2 : RankedTech :=
  ⟨⟨12, 2, "b", none, none, some true, "available", none⟩, some 200, .Geopy⟩

/-- A technician that is currently assigned (not free). -/
def busyTech : TechRec :=
  ⟨201, 1, "tech", some (.num 500), some (.num 500), some false, "assigned",
   some 9⟩

/-- A customer requesting a dispatch while `busyTech` is still assigned. -/
def busyCust : CustRec := ⟨100, 2, "cust", some (.num 500), some (.num 510)⟩

/-- An old assignment record of `busyTech`, still `assigned`. -/
def oldAssign : AssignRec :=
  ⟨9, 1, 90, 201, "old customer", "tech", some 50, .ORS, "old", "assigned"⟩

/-- Database in which `busyTech` is still assigned to customer 9. -/
def busyDb : Db := ⟨[busyCust], [busyTech], [oldAssign]⟩

/-- The ranking snapshot of `busyTech` as the chosen candidate. -/
def busyBest : RankedTech := ⟨busyTech, some 111, .Geopy⟩

/-- A database with a customer but no technician at all. -/
def dbEmpty : Db := ⟨[cust0], [], []⟩

/-- A customer at truthy coordinates `(5, 5)` degrees. -/
def custV : CustRec := ⟨100, 1, "cust", some (.num 500), some (.num 500)⟩

/-- A free technician at `(5, 6)` degrees. -/
def techA : TechRec :=
  ⟨201, 2, "far", some (.num 500), some (.num 600), some true, "available",
   none⟩

/-- A free technician at `(5, 5.1)` degrees. -/
def techB : TechRec :=
  ⟨202, 3, "near", some (.num 500), some (.num 510), some true, "available",
   none⟩

/-- Database with `custV` and the two free technicians. -/
def dbV : Db := ⟨[custV], [techA, techB], []⟩

/-- Environment with both routing providers down (geodesic distances
111.195 km and 1.112 km) and the model service unreachable. -/
def envV : RankEnv :=
  ⟨fun _ => ⟨none, none, fun _ _ _ lon2 => if lon2 = 600 then 111195 else 1112⟩,
   .httpFail⟩

/-- The ranked entry the pipeline computes for `techA` under `envV`. -/
def rtA : RankedTech := ⟨techA, some 11120, .Geopy⟩

/-- The ranked entry the pipeline computes for `techB` under `envV`. -/
def rtB : RankedTech := ⟨techB, some 111, .Geopy⟩

/-- A resolver environment where only the secondary provider answers
(1500 meters). -/
def reOsrm : ResolverEnv := ⟨none, some 1500, fun _ _ _ _ => 0⟩

/-- A resolver environment where both routing providers fail. -/
def reDown : ResolverEnv := ⟨none, none, fun _ _ _ _ => 5⟩

/-! Helper lemmas. -/

/-- The ranking loop never changes the technician document it annotates. -/
theorem rankTech_tech (renv : TechRec → ResolverEnv) (c : CustRec)
    (t : TechRec) : (rankTech renv c t).tech = t := by
  unfold rankTech
  split
  · split <;> rfl
  · rfl

/-- Stability of the embedded sort, stated as Python documents stability:
the sublist of entries with any fixed distance is exactly preserved. -/
theorem filter_rkey_insertionSort (k : ℤ) (l : List RankedTech) :
    (l.insertionSort rankRel).filter (fun r => rkey r == k) =
      l.filter (fun r => rkey r == k) := by
  have hpw : (l.filter (fun r => rkey r == k)).Pairwise rankRel := by
    apply List.pairwise_of_forall_mem_list
    intro a ha b hb
    have ha' := List.of_mem_filter ha
    have hb' := List.of_mem_filter hb
    simp only [beq_iff_eq] at ha' hb'
    unfold rankRel
    rw [ha', hb']
  have h1 : List.Sublist (l.filter (fun r => rkey r == k))
      (l.insertionSort rankRel) :=
    List.sublist_insertionSort hpw (List.filter_sublist l)
  have h2 := h1.filter (fun r => rkey r == k)
  have h2' : List.Sublist (l.filter (fun r => rkey r == k))
      ((l.insertionSort rankRel).filter (fun r => rkey r == k)) := by
    simpa using h2
  have h3 : ((l.insertionSort rankRel).filter (fun r => rkey r == k)).length =
      (l.filter (fun r => rkey r == k)).length :=
    ((List.perm_insertionSort rankRel l).filter _).length_eq
  exact (h2'.eq_of_length h3.symm).symm

/-- When the ranker succeeds, the shortlist is the 3-element prefix of the
stable sort of the resolved candidates. -/
theorem proximity_ok_top3 {env : RankEnv} {cust : CustRec} {db : Db}
    {top3 : List RankedTech} {best : RankedTech} {reason : String}
    (h : compute_proximity_agent env cust db = .ok (top3, best, reason)) :
    top3 = ((resolvedCandidates env cust db).insertionSort rankRel).take 3 := by
  unfold compute_proximity_agent at h
  split at h
  · exact absurd h (by simp)
  · split at h
    · exact absurd h (by simp)
    · rename_i first rest heq
      rw [heq]
      simp only [Except.ok.injEq, Prod.mk.injEq] at h
      exact h.1.symm

/-- `find?` after `update_one` on the first match, when the update
preserves the predicate. -/
theorem find?_updateFirst (p : α → Bool) (f : α → α) (l : List α)
    (hf : ∀ a, p a = true → p (f a) = true) :
    (updateFirst p f l).find? p = (l.find? p).map f := by
  induction l with
  | nil => rfl
  | cons x xs ih =>
    by_cases hx : p x = true
    · rw [updateFirst, if_pos hx, List.find?_cons_of_pos _ (hf x hx),
        List.find?_cons_of_pos _ hx, Option.map_some']
    · rw [updateFirst, if_neg hx,
        List.find?_cons_of_neg _ (by simpa using hx),
        List.find?_cons_of_neg _ (by simpa using hx), ih]

/-! Claim theorems. -/

/-- C2: `compute_distance` tries primary routing, secondary routing and
the geometric fallback in that fixed order, attempts each step exactly
once and only when every earlier step failed, returns the rounded
kilometers with the tag of the step that succeeded, and never reports the
primary tag once the primary provider has failed. -/
theorem C2_fallback_chain (env : ResolverEnv) (c t : Val × Val) :
    Step.ors ∈ (computeDistanceT env c t).2 ∧
    (computeDistanceT env c t).2.Nodup ∧
    ((computeDistanceT env c t).2 = [.ors] ∨
      (computeDistanceT env c t).2 = [.ors, .osrm] ∨
      (computeDistanceT env c t).2 = [.ors, .osrm, .geopy]) ∧
    (Step.osrm ∈ (computeDistanceT env c t).2 ↔ env.ors = none) ∧
    (Step.geopy ∈ (computeDistanceT env c t).2 ↔
      env.ors = none ∧ env.osrm = none) ∧
    (∀ m, env.ors = some m →
      computeDistanceT env c t = ((some (round2 m), .ORS), [.ors])) ∧
    (∀ m, env.ors = none → env.osrm = some m →
      computeDistanceT env c t = ((some (round2 m), .OSRM), [.ors, .osrm])) ∧
    (∀ p q, env.ors = none → env.osrm = none → coordNums c = some p →
      coordNums t = some q →
      computeDistanceT env c t =
        ((some (round2 (env.geoKm p.1 p.2 q.1 q.2)), .Geopy),
         [.ors, .osrm, .geopy])) ∧
    (env.ors = none → (compute_distance env c t).2 ≠ .ORS) := by
  rcases ho : env.ors with _ | m <;> rcases hs : env.osrm with _ | m2 <;>
    rcases hcc : coordNums c with _ | p <;> rcases hct : coordNums t with _ | q <;>
    simp [computeDistanceT, compute_distance, ho, hs, hcc, hct]

/-- C2 witness: with the primary provider down and the secondary
answering 1500 meters, the result is the secondary tag with the rounded
distance, after one attempt of each routing step. -/
theorem C2_witness :
    computeDistanceT reOsrm (.num 1, .num 2) (.num 3, .num 4) =
      ((some (round2 1500), .OSRM), [.ors, .osrm]) :=
  (C2_fallback_chain reOsrm (.num 1, .num 2) (.num 3, .num 4)).2.2.2.2.2.2.1
    1500 rfl rfl

/-- C5: on numeric coordinates the resolver always returns a non-null
distance, whatever the providers do; a null distance can only arise from
a malformed coordinate pair. -/
theorem C5_valid_coords_nonnull (env : ResolverEnv) (a b a2 b2 : ℤ) :
    ((compute_distance env (.num a, .num b) (.num a2, .num b2)).1.isSome) ∧
    (∀ c t, (compute_distance env c t).1 = none →
      coordNums c = none ∨ coordNums t = none) := by
  constructor
  · rcases ho : env.ors with _ | m
    · rcases hs : env.osrm with _ | m2 <;>
        simp [compute_distance, computeDistanceT, ho, hs, coordNums]
    · simp [compute_distance, computeDistanceT, ho]
  · intro c t h
    rcases ho : env.ors with _ | m <;>
      rcases hs : env.osrm with _ | m2 <;>
      rcases hcc : coordNums c with _ | p <;>
      rcases hct : coordNums t with _ | q <;>
      simp [compute_distance, computeDistanceT, ho, hs, hcc, hct] at h ⊢

/-- C5 witness: with both providers down the geometric fallback still
resolves numeric coordinates, and a malformed pair is the only source of
a null distance. -/
theorem C5_witness :
    (compute_distance reDown (.num 1, .num 2) (.num 3, .num 4)).1.isSome ∧
    (coordNums (Val.malformed, Val.num 0) = none ∨
      coordNums (Val.num 1, Val.num 2) = none) := by
  have h := C5_valid_coords_nonnull reDown 1 2 3 4
  exact ⟨h.1, h.2 (Val.malformed, Val.num 0) (.num 1, .num 2) rfl⟩

/-- C4: a successful ranking returns the 3-element prefix of the
ascending stable sort of the resolved candidates: it is sorted by
distance, no longer than 3, no longer than the number of technicians
whose distance resolved, and ties keep their original iteration order
(the sublist at each fixed distance is preserved by the sort). -/
theorem C4_ranker_shortlist (env : RankEnv) (cust : CustRec) (db : Db)
    (top3 : List RankedTech) (best : RankedTech) (reason : String)
    (h : compute_proximity_agent env cust db = .ok (top3, best, reason)) :
    List.Sorted rankRel top3 ∧
    top3.length ≤ 3 ∧
    top3.length ≤ (resolvedCandidates env cust db).length ∧
    top3 = ((resolvedCandidates env cust db).insertionSort rankRel).take 3 ∧
    (∀ k : ℤ,
      ((resolvedCandidates env cust db).insertionSort rankRel).filter
          (fun r => rkey r == k) =
        (resolvedCandidates env cust db).filter (fun r => rkey r == k)) := by
  have ht := proximity_ok_top3 h
  refine ⟨?_, ?_, ?_, ht, fun k => filter_rkey_insertionSort k _⟩
  · rw [ht]
    exact List.Pairwise.sublist (List.take_sublist 3 _)
      (List.sorted_insertionSort rankRel _)
  · rw [ht, List.length_take]
    exact min_le_left _ _
  · rw [ht, List.length_take, List.length_insertionSort]
    exact min_le_right _ _

/-- C4 witness: concrete run with both providers down; the shortlist is
the near technician then the far one, sorted and within bounds. -/
theorem C4_witness :
    List.Sorted rankRel [rtB, rtA] ∧
    ([rtB, rtA] : List RankedTech).length ≤
      (resolvedCandidates envV custV dbV).length := by
  have h := C4_ranker_shortlist envV custV dbV [rtB, rtA] rtB
    fallbackReason rfl
  exact ⟨h.1, h.2.2.1⟩

/-- C6: the ranker fails with the no-candidates error exactly when the
free-technician query is empty, fails with the no-resolvable-distance
error exactly when technicians exist but every distance resolution
failed, and in either case the dispatch returns that error with the
database unchanged (no writes). -/
theorem C6_ranker_failure_modes (env : RankEnv) (cust : CustRec) (db : Db) :
    (compute_proximity_agent env cust db = .error .noFreeTechnicians ↔
      freeTechs db = []) ∧
    (compute_proximity_agent env cust db = .error .noValidDistance ↔
      (freeTechs db ≠ [] ∧ ∀ t ∈ freeTechs db,
        (rankTech env.renv cust t).distance_km = none)) ∧
    (∀ ticket cust2 e, load_customer_agent ticket db = .ok cust2 →
      compute_proximity_agent env cust2 db = .error e →
      dispatch env ticket db = (.error e, db)) := by
  refine ⟨?_, ?_, ?_⟩
  · unfold compute_proximity_agent
    split
    · rename_i hemp
      rw [List.isEmpty_iff] at hemp
      simp [hemp]
    · rename_i hemp
      have hemp' : freeTechs db ≠ [] := by
        simpa [List.isEmpty_iff] using hemp
      split <;> simp [hemp']
  · unfold compute_proximity_agent
    split
    · rename_i hemp
      rw [List.isEmpty_iff] at hemp
      simp [hemp]
    · rename_i hemp
      have hemp' : freeTechs db ≠ [] := by
        simpa [List.isEmpty_iff] using hemp
      split
      · rename_i htake
        have hres : resolvedCandidates env cust db = [] := by
          rcases List.take_eq_nil_iff.mp htake with h3 | hnil
          · exact absurd h3 (by decide)
          · have hlen := congrArg List.length hnil
            rw [List.length_insertionSort] at hlen
            exact List.length_eq_zero.mp (by simpa using hlen)
        unfold resolvedCandidates at hres
        have hall : ∀ t ∈ freeTechs db,
            (rankTech env.renv cust t).distance_km = none := by
          intro t htmem
          have hn := List.filter_eq_nil_iff.mp hres
            (rankTech env.renv cust t) (List.mem_map_of_mem _ htmem)
          exact Option.not_isSome_iff_eq_none.mp (by simpa using hn)
        exact ⟨fun _ => ⟨hemp', hall⟩, fun _ => rfl⟩
      · rename_i first rest htake
        constructor
        · intro habs
          exact absurd habs (by simp)
        · rintro ⟨hne, hall⟩
          have hres : resolvedCandidates env cust db = [] := by
            unfold resolvedCandidates
            apply List.filter_eq_nil_iff.mpr
            intro r hr
            rcases List.mem_map.mp hr with ⟨t, htm, rfl⟩
            simp [hall t htm]
          rw [hres] at htake
          simp [List.insertionSort] at htake
  · intro ticket cust2 e hload hprox
    simp [dispatch, hload, hprox]

/-- C6 witness: with no technician stored, the ranker fails with the
no-candidates error and the dispatch returns it with the database
untouched. -/
theorem C6_witness :
    compute_proximity_agent envDown cust0 dbEmpty =
      .error .noFreeTechnicians ∧
    dispatch envDown (some 1) dbEmpty =
      (.error .noFreeTechnicians, dbEmpty) := by
  have h := C6_ranker_failure_modes envDown cust0 dbEmpty
  exact ⟨h.1.mpr rfl,
    h.2.2 (some 1) cust0 .noFreeTechnicians rfl (h.1.mpr rfl)⟩

/-- C10: a customer or technician coordinate equal to `0` (a present,
numeric value) is treated as missing by the ranker's truthiness guard:
the technician gets a null distance with the `Failed` tag and never
appears in the shortlist. -/
theorem C10_zero_coordinate_is_missing (env : RankEnv) (cust : CustRec)
    (db : Db) (tech : TechRec)
    (h : cust.latitude = some (.num 0) ∨ cust.longitude = some (.num 0) ∨
      tech.latitude = some (.num 0) ∨ tech.longitude = some (.num 0)) :
    rankTech env.renv cust tech = ⟨tech, none, .Failed⟩ ∧
    (∀ top3 best reason,
      compute_proximity_agent env cust db = .ok (top3, best, reason) →
      ∀ r ∈ top3, r.tech ≠ tech) := by
  have hrank : rankTech env.renv cust tech = ⟨tech, none, .Failed⟩ := by
    have hfalse : coordsPresent cust tech = false := by
      unfold coordsPresent
      rcases h with h | h | h | h <;> simp [h, optTruthy, Val.truthy]
    unfold rankTech
    rw [hfalse]
    simp
  refine ⟨hrank, ?_⟩
  intro top3 best reason hok r hr hrt
  have htop := proximity_ok_top3 hok
  rw [htop] at hr
  have hr1 : r ∈ (resolvedCandidates env cust db).insertionSort rankRel :=
    List.mem_of_mem_take hr
  have hr2 : r ∈ resolvedCandidates env cust db :=
    (List.mem_insertionSort _).mp hr1
  unfold resolvedCandidates at hr2
  have hr3 := List.of_mem_filter hr2
  have hr4 := List.mem_of_mem_filter hr2
  rcases List.mem_map.mp hr4 with ⟨t', ht', heq⟩
  have ht'eq : t' = tech := by
    rw [← heq, rankTech_tech] at hrt
    exact hrt
  subst ht'eq
  rw [hrank] at heq
  rw [← heq] at hr3
  simp at hr3

/-- C10 witness: the far technician of scenario A sits at latitude `0`
and is excluded with a null distance and the `Failed` tag. -/
theorem C10_witness :
    rankTech envDown.renv cust0 techFar = ⟨techFar, none, .Failed⟩ :=
  (C10_zero_coordinate_is_missing envDown cust0 db0 techFar
    (Or.inr (Or.inr (Or.inl rfl)))).1

/-- C3 counterexample: when the model replies with an id that matches no
shortlist entry, the arbiter does return the first entry, but with the
model-supplied reason — not the fixed fallback justification the claim
requires for every failed validation check. -/
theorem C3_counterexample :
    (∀ r ∈ ([crt1, crt2] : List RankedTech),
      r.tech.technician_id ≠ (999 : ℤ)) ∧
    chooseBest (.parsed (some 999) (some "sounds good")) crt1 [crt1, crt2] =
      (crt1, "sounds good") ∧
    ("sounds good" : String) ≠ fallbackReason := by
  refine ⟨by decide, rfl, by decide⟩

/-- C3 (amended): on an HTTP failure, an empty body or unparseable
content the arbiter returns the first shortlist entry with the fixed
fallback justification; on a parsed reply whose id matches no entry it
returns the first entry with the model-supplied reason (default "Chosen
based on proximity"); and no model-call outcome changes whether the
ranker-arbiter stage succeeds. -/
theorem C3_arbiter_fallback (first : RankedTech) (top3 : List RankedTech)
    (idOpt : Option ℤ) (reasonOpt : Option String) :
    chooseBest .httpFail first top3 = (first, fallbackReason) ∧
    chooseBest .badJson first top3 = (first, fallbackReason) ∧
    ((∀ r ∈ top3, some r.tech.technician_id ≠ idOpt) →
      chooseBest (.parsed idOpt reasonOpt) first top3 =
        (first, reasonOpt.getD "Chosen based on proximity")) ∧
    (∀ renv llm llm2 cust db,
      (compute_proximity_agent ⟨renv, llm⟩ cust db).isOk =
        (compute_proximity_agent ⟨renv, llm2⟩ cust db).isOk) := by
  refine ⟨rfl, rfl, ?_, ?_⟩
  · intro hnone
    have hfind : top3.find? (fun r => some r.tech.technician_id == idOpt) =
        none := by
      rw [List.find?_eq_none]
      intro x hx
      simpa using hnone x hx
    simp [chooseBest, hfind]
  · intro renv llm llm2 cust db
    have hr : resolvedCandidates ⟨renv, llm2⟩ cust db =
        resolvedCandidates ⟨renv, llm⟩ cust db := rfl
    unfold compute_proximity_agent
    rw [hr]
    by_cases hemp : (freeTechs db).isEmpty = true
    · rw [if_pos hemp, if_pos hemp]
    · rw [if_neg hemp, if_neg hemp]
      cases htake : ((resolvedCandidates ⟨renv, llm⟩ cust db).insertionSort
          rankRel).take 3 <;> rfl

/-- C3 witness: a concrete caught failure yields the fixed justification,
and a concrete unmatched id yields the first entry with the default
model reason. -/
theorem C3_witness :
    chooseBest .httpFail crt1 [crt1, crt2] = (crt1, fallbackReason) ∧
    chooseBest (.parsed (some 5) none) crt1 [crt1, crt2] =
      (crt1, "Chosen based on proximity") := by
  have h := C3_arbiter_fallback crt1 [crt1, crt2] (some 5) none
  exact ⟨h.1, h.2.2.1 (by decide)⟩

/-- After the `update_many` flip, no record of the technician is still
`assigned`. -/
theorem flipRec_not_active_tech (tid cid : ℤ) (a : AssignRec) :
    ((flipRec tid cid a).tech_id == tid &&
      (flipRec tid cid a).status == "assigned") = false := by
  unfold flipRec
  split
  · simp
  · rename_i hcond
    by_cases h : a.tech_id = tid
    · have hs : a.status ≠ "assigned" := fun hs => hcond (Or.inl ⟨h, hs⟩)
      simp [hs]
    · simp [h]

/-- After the `update_many` flip, no record of the customer is still
`assigned`. -/
theorem flipRec_not_active_cust (tid cid : ℤ) (a : AssignRec) :
    ((flipRec tid cid a).customer_id == cid &&
      (flipRec tid cid a).status == "assigned") = false := by
  unfold flipRec
  split
  · simp
  · rename_i hcond
    by_cases h : a.customer_id = cid
    · have hs : a.status ≠ "assigned" := fun hs => hcond (Or.inr ⟨h, hs⟩)
      simp [hs]
    · simp [h]

/-- C7: when both documents are found, `assign_agent` first flips every
`assigned` record referencing the technician or the customer to
`completed` and only then appends the new `assigned` record, so exactly
one `assigned` record references the technician (and the customer)
afterwards. -/
theorem C7_assign_completes_then_inserts (best : RankedTech)
    (reason : String) (cust : CustRec) (db : Db) (techDoc : TechRec)
    (custDoc : CustRec)
    (ht : db.technicians.find?
      (fun t => t.technician_id == best.tech.technician_id) = some techDoc)
    (hc : db.customers.find?
      (fun c => c.customer_id == cust.customer_id) = some custDoc) :
    (assign_agent best reason cust db).2 = .ok (techDoc, custDoc) ∧
    (assign_agent best reason cust db).1.assignments =
      db.assignments.map
          (flipRec best.tech.technician_id cust.customer_id) ++
        [⟨cust.customer_id, best.tech.technician_id, custDoc.oid,
          techDoc.oid, custDoc.name, techDoc.name, best.distance_km,
          best.distance_method, reason, "assigned"⟩] ∧
    ((assign_agent best reason cust db).1.assignments.filter
        (fun a => a.tech_id == best.tech.technician_id &&
          a.status == "assigned")).length = 1 ∧
    ((assign_agent best reason cust db).1.assignments.filter
        (fun a => a.customer_id == cust.customer_id &&
          a.status == "assigned")).length = 1 := by
  have h2 : (assign_agent best reason cust db).1.assignments =
      db.assignments.map
          (flipRec best.tech.technician_id cust.customer_id) ++
        [⟨cust.customer_id, best.tech.technician_id, custDoc.oid,
          techDoc.oid, custDoc.name, techDoc.name, best.distance_km,
          best.distance_method, reason, "assigned"⟩] := by
    simp [assign_agent, ht, hc]
  refine ⟨by simp [assign_agent, ht, hc], h2, ?_, ?_⟩
  · rw [h2, List.filter_append]
    have h0 : (db.assignments.map
        (flipRec best.tech.technician_id cust.customer_id)).filter
        (fun a => a.tech_id == best.tech.technician_id &&
          a.status == "assigned") = [] := by
      apply List.filter_eq_nil_iff.mpr
      intro a ha
      rcases List.mem_map.mp ha with ⟨b, _, rfl⟩
      simp [flipRec_not_active_tech]
    rw [h0]
    simp
  · rw [h2, List.filter_append]
    have h0 : (db.assignments.map
        (flipRec best.tech.technician_id cust.customer_id)).filter
        (fun a => a.customer_id == cust.customer_id &&
          a.status == "assigned") = [] := by
      apply List.filter_eq_nil_iff.mpr
      intro a ha
      rcases List.mem_map.mp ha with ⟨b, _, rfl⟩
      simp [flipRec_not_active_cust]
    rw [h0]
    simp

/-- C7 witness: dispatching `busyCust` to `busyTech`, whose old record is
still `assigned`, leaves exactly one `assigned` record for that
technician. -/
theorem C7_witness :
    (assign_agent busyBest "r" busyCust busyDb).2 =
      .ok (busyTech, busyCust) ∧
    ((assign_agent busyBest "r" busyCust busyDb).1.assignments.filter
        (fun a => a.tech_id == busyBest.tech.technician_id &&
          a.status == "assigned")).length = 1 := by
  have h := C7_assign_completes_then_inserts busyBest "r" busyCust busyDb
    busyTech busyCust rfl rfl
  exact ⟨h.1, h.2.2.1⟩

/-- C8: `complete_assignment` is idempotent — an already-free technician
yields a no-op with no mutation, a second call right after any call
leaves the state unchanged, and a successful release makes the next call
a no-op. -/
theorem C8_release_idempotent (tid : ℤ) (db : Db) :
    (∀ tech, db.technicians.find?
        (fun t => t.technician_id == tid) = some tech →
      tech.is_free.getD true = true →
      complete_assignment tid db = (.noop, db)) ∧
    ((complete_assignment tid (complete_assignment tid db).2).2 =
      (complete_assignment tid db).2) ∧
    (∀ n, (complete_assignment tid db).1 = .success n →
      (complete_assignment tid (complete_assignment tid db).2).1 =
        .noop) := by
  refine ⟨?_, ?_, ?_⟩
  · intro tech hfind hfree
    simp [complete_assignment, hfind, hfree]
  · rcases hfind : db.technicians.find?
        (fun t => t.technician_id == tid) with _ | tech
    · simp [complete_assignment, hfind]
    · by_cases hfree : tech.is_free.getD true = true
      · simp [complete_assignment, hfind, hfree]
      · have hfree' : tech.is_free.getD true = false :=
          Bool.eq_false_iff.mpr hfree
        have hpres : ∀ a : TechRec, (a.technician_id == tid) = true →
            ((freeTech a).technician_id == tid) = true := by
          intro a ha
          simpa [freeTech] using ha
        have hf2 := find?_updateFirst
          (fun t => t.technician_id == tid) freeTech db.technicians hpres
        rw [hfind] at hf2
        simp [complete_assignment, hfind, hfree', hf2, freeTech]
  · intro n hsucc
    rcases hfind : db.technicians.find?
        (fun t => t.technician_id == tid) with _ | tech
    · simp [complete_assignment, hfind] at hsucc
    · by_cases hfree : tech.is_free.getD true = true
      · simp [complete_assignment, hfind, hfree] at hsucc
      · have hfree' : tech.is_free.getD true = false :=
          Bool.eq_false_iff.mpr hfree
        have hpres : ∀ a : TechRec, (a.technician_id == tid) = true →
            ((freeTech a).technician_id == tid) = true := by
          intro a ha
          simpa [freeTech] using ha
        have hf2 := find?_updateFirst
          (fun t => t.technician_id == tid) freeTech db.technicians hpres
        rw [hfind] at hf2
        simp [complete_assignment, hfind, hfree', hf2, freeTech]

/-- C8 witness: releasing `busyTech` succeeds once and the immediate
second release is a no-op that changes nothing. -/
theorem C8_witness :
    ((complete_assignment 1 (complete_assignment 1 busyDb).2).2 =
      (complete_assignment 1 busyDb).2) ∧
    (complete_assignment 1 (complete_assignment 1 busyDb).2).1 =
      .noop := by
  have h := C8_release_idempotent 1 busyDb
  exact ⟨h.2.1, h.2.2 1 rfl⟩

/-- C9: evaluated at a state where the chosen technician is no longer
free (already reassigned), `assign_agent` still commits a new `assigned`
record and reports success — no conflict error of any kind is raised. -/
theorem C9_commit_despite_conflict :
    busyTech.is_free = some false ∧
    (assign_agent busyBest "r2" busyCust busyDb).2 =
      .ok (busyTech, busyCust) ∧
    ((assign_agent busyBest "r2" busyCust busyDb).1.assignments.map
        (fun a => (a.tech_id, a.status))) =
      [(1, "completed"), (1, "assigned")] :=
  ⟨rfl, rfl, rfl⟩

/-- C1: on scenario A's inputs (customer at `(0,0)`, free technicians at
`(0,1)` and `(0,0.01)`, all providers and the model unreachable) the
code rejects every technician — the `(0,*)` coordinates are falsy — and
the dispatch aborts with the no-resolvable-distance error instead of
assigning the near technician. -/
theorem C1_scenario_a_fails_on_code :
    dispatch envDown (some 1) db0 = (.error .noValidDistance, db0) ∧
    rankTech envDown.renv cust0 techNear = ⟨techNear, none, .Failed⟩ ∧
    rankTech envDown.renv cust0 techFar = ⟨techFar, none, .Failed⟩ :=
  ⟨rfl, rfl, rfl⟩

end Dispatch
